import Mathlib

set_option linter.unusedVariables false

/- Verification of the scientific-data-viewer core scripts
   (src/python/get_data_info.py and src/python/check_package_availability.py)
   against their natural-language specification.

   Modelling conventions: Python exceptions become an explicit error type,
   fallible calls return Except, and the external collaborators (xarray,
   netCDF4, h5netcdf, matplotlib, importlib) are modelled as an explicit
   environment of oracles, since the spec places the decoding backends and
   the renderer out of scope. -/

inductive PyError where
  | importError (msg : String)
  | moduleNotFoundError (msg : String)
  | valueError (msg : String)
  | notImplementedError (msg : String)
  | keyError (key : String)
  | attributeError (msg : String)
  | unboundLocalError (name : String)
  | indexError (msg : String)
  | osError (msg : String)
  | runtimeError (msg : String)
  deriving DecidableEq, Repr

def PyError.typeName : PyError → String
  | .importError _ => "ImportError"
  | .moduleNotFoundError _ => "ModuleNotFoundError"
  | .valueError _ => "ValueError"
  | .notImplementedError _ => "NotImplementedError"
  | .keyError _ => "KeyError"
  | .attributeError _ => "AttributeError"
  | .unboundLocalError _ => "UnboundLocalError"
  | .indexError _ => "IndexError"
  | .osError _ => "OSError"
  | .runtimeError _ => "RuntimeError"

def PyError.rawArg : PyError → String
  | .importError m => m
  | .moduleNotFoundError m => m
  | .valueError m => m
  | .notImplementedError m => m
  | .keyError k => k
  | .attributeError m => m
  | .unboundLocalError n =>
      "cannot access local variable \x27" ++ n ++ "\x27 where it is not associated with a value"
  | .indexError m => m
  | .osError m => m
  | .runtimeError m => m

/-- Model of str(exc): KeyError renders its key quoted, others render their message. -/
def PyError.message : PyError → String
  | .keyError k => "\x27" ++ k ++ "\x27"
  | e => e.rawArg

/-- Model of repr(exc), used in create_plot log and error strings. -/
def PyError.reprP (e : PyError) : String :=
  e.typeName ++ "(\x27" ++ e.rawArg ++ "\x27)"

/- Model of the Python values that can appear in attribute mappings and in
   the JSON payload. Floating-point numbers matter to the claims only
   through NaN-ness, so a float is either NaN or carries its literal. -/

inductive PyVal where
  | strV (s : String)
  | intV (n : Int)
  | boolV (b : Bool)
  | noneV
  | nanFloat
  | numFloat (lit : String)
  | listV (xs : List PyVal)
  | tupleV (xs : List PyVal)
  | dictV (kvs : List (String × PyVal))
  | ndarrayV (strForm : String)
  | opaqueV (strForm : String)

/- <JSON Serialization Section> of get_data_info.py -/

/- sanitize_nan(obj, default) recurses into dicts and lists and replaces a
   NaN-valued float leaf by default(obj); everything else (tuples, numpy
   arrays, ...) passes through unchanged.  The mutual helpers mirror the
   dict and list comprehensions of the source. -/

mutual

def sanitize_nan (default : PyVal → PyVal) : PyVal → PyVal
  | .dictV kvs => .dictV (sanitizePairs default kvs)
  | .listV xs => .listV (sanitizeList default xs)
  | .nanFloat => default .nanFloat
  | v => v

def sanitizeList (default : PyVal → PyVal) : List PyVal → List PyVal
  | [] => []
  | v :: tl => sanitize_nan default v :: sanitizeList default tl

def sanitizePairs (default : PyVal → PyVal) :
    List (String × PyVal) → List (String × PyVal)
  | [] => []
  | kv :: tl => (kv.1, sanitize_nan default kv.2) :: sanitizePairs default tl

end

def escapeJsonChar (c : Char) : String :=
  if c = '"' then "\\\"" else if c = '\\' then "\\\\" else String.singleton c

def jsonQuote (s : String) : String :=
  "\"" ++ String.join (s.toList.map escapeJsonChar) ++ "\""

/- Model of json.dumps(obj, cls=ComplexEncoder, allow_nan=False, default=str).
   Because the default=str keyword is passed, JSONEncoder.__init__ installs
   str as the instance default, shadowing ComplexEncoder.default; every
   object the encoder cannot represent natively (numpy arrays, dataclasses,
   ...) is therefore stringified wholesale via str().  allow_nan=False makes
   a bare NaN float reaching the encoder raise ValueError. -/

mutual

def dumpsVal : PyVal → Except PyError String
  | .strV s => .ok (jsonQuote s)
  | .intV n => .ok (toString n)
  | .boolV b => .ok (if b then "true" else "false")
  | .noneV => .ok "null"
  | .nanFloat => .error (.valueError "Out of range float values are not JSON compliant")
  | .numFloat lit => .ok lit
  | .listV xs =>
      match dumpsList xs with
      | .ok parts => .ok ("[" ++ String.intercalate ", " parts ++ "]")
      | .error e => .error e
  | .tupleV xs =>
      match dumpsList xs with
      | .ok parts => .ok ("[" ++ String.intercalate ", " parts ++ "]")
      | .error e => .error e
  | .dictV kvs =>
      match dumpsPairs kvs with
      | .ok parts => .ok ("\x7b" ++ String.intercalate ", " parts ++ "\x7d")
      | .error e => .error e
  | .ndarrayV s => .ok (jsonQuote s)
  | .opaqueV s => .ok (jsonQuote s)

def dumpsList : List PyVal → Except PyError (List String)
  | [] => .ok []
  | v :: tl =>
      match dumpsVal v with
      | .error e => .error e
      | .ok s =>
          match dumpsList tl with
          | .error e => .error e
          | .ok rest => .ok (s :: rest)

def dumpsPairs : List (String × PyVal) → Except PyError (List String)
  | [] => .ok []
  | kv :: tl =>
      match dumpsVal kv.2 with
      | .error e => .error e
      | .ok s =>
          match dumpsPairs tl with
          | .error e => .error e
          | .ok rest => .ok ((jsonQuote kv.1 ++ ": " ++ s) :: rest)

end

/- ComplexEncoder.encode first sanitizes with default=repr; repr is only
   ever applied to a NaN float there, and repr(float(nan)) is the string
   nan. -/
def nanReprDefault : PyVal → PyVal := fun _ => .strV "nan"

/-- to_json_best_effort: encode via ComplexEncoder (sanitize then dump). -/
def to_json_best_effort (v : PyVal) : Except PyError String :=
  dumpsVal (sanitize_nan nanReprDefault v)

/- </JSON Serialization Section> -/

/- Data model of the external xarray objects, by interface: only the
   observations the scripts make of them are modelled. -/

structure DataArrayM where
  dims : List String
  shape : List Nat
  dtype : String
  nbytes : Nat
  attrs : List (String × PyVal)
  reprText : Except PyError String
  reprHtml : Except PyError String

structure DatasetM where
  dataVars : List (String × DataArrayM)
  coords : List (String × DataArrayM)
  attrs : List (String × PyVal)
  dims : List (String × Nat)
  reprText : Except PyError String
  reprHtml : Except PyError String

/- An xarray DataTree, modelled through the view the scripts use: its root
   dataset plus the path-keyed datasets of its non-root nodes (the content
   of to_dict() minus the root), and its own textual representations. -/
structure DataTreeM where
  root : DatasetM
  descendants : List (String × DatasetM)
  reprText : Except PyError String
  reprHtml : Except PyError String

/-- DataTree.to_dict(): path-keyed datasets, the root path "/" always first. -/
def DataTreeM.toDict (t : DataTreeM) : List (String × DatasetM) :=
  ("/", t.root) :: t.descendants

/- The three result shapes the Backend Resolver can hand downstream: a
   native tree, a dict of datasets keyed by group, or (from the
   NotImplementedError fallback) a bare flat dataset. -/
inductive HandleM where
  | tree (t : DataTreeM)
  | dict (d : List (String × DatasetM))
  | flat (ds : DatasetM)

def HandleM.isTree : HandleM → Bool
  | .tree _ => true
  | _ => false

/-- Normalized group-keyed view of a handle; a bare flat dataset is not a
group-keyed mapping. -/
def HandleM.asGroupMapping : HandleM → Option (List (String × DatasetM))
  | .tree t => some t.toDict
  | .dict d => some d
  | .flat _ => none

/- Rendering calls create_plot can issue, by strategy. -/
inductive PlotCall where
  | imshow2d
  | imshow2dIsel (dim : String)
  | imshow3dCol (dim : String) (colWrap : Nat)
  | imshow4dColRow (rowDim : String) (colDim : String)
  | defaultPlot

/- The oracle environment: file-system state, importlib probing, and the
   per-engine behaviour of the external decoding backends for the one file
   path of the request. -/
structure Env where
  hasOpenDatatree : Bool
  findSpec : String → Except PyError (Option Unit)
  openDatatree : String → Except PyError DataTreeM
  openDataset : String → Except PyError DatasetM
  openDatasetGroup : String → String → Except PyError DatasetM
  netcdf4Groups : Except PyError (List String)
  h5netcdfGroups : Except PyError (List String)
  render : PlotCall → Except PyError String
  fileSize : Nat
  showVersions : String

/- A pathlib.Path argument, modelled through the observations the scripts
   make of it: its (already lower-case-insensitive) suffix and its repr. -/
structure PyPath where
  suffix : String
  reprS : String

structure FileFormatInfo where
  extension : String
  display_name : String
  available_engines : List String
  missing_packages : List String
  deriving DecidableEq, Repr

/-- is_supported: at least one engine is available. -/
def FileFormatInfo.is_supported (f : FileFormatInfo) : Bool :=
  decide (0 < f.available_engines.length)

/-- FORMAT_ENGINE_MAP from get_data_info.py. -/
def FORMAT_ENGINE_MAP (ext : String) : Option (List String) :=
  if ext == ".nc" then some ["netcdf4", "h5netcdf", "scipy"]
  else if ext == ".nc4" then some ["netcdf4", "h5netcdf"]
  else if ext == ".netcdf" then some ["netcdf4", "h5netcdf", "scipy"]
  else if ext == ".cdf" then some ["netcdf4", "h5netcdf", "scipy"]
  else if ext == ".zarr" then some ["zarr"]
  else if ext == ".h5" then some ["h5netcdf", "h5py", "netcdf4"]
  else if ext == ".hdf5" then some ["h5netcdf", "h5py", "netcdf4"]
  else if ext == ".grib" then some ["cfgrib"]
  else if ext == ".grib2" then some ["cfgrib"]
  else if ext == ".grb" then some ["cfgrib"]
  else if ext == ".tif" then some ["rasterio"]
  else if ext == ".tiff" then some ["rasterio"]
  else if ext == ".geotiff" then some ["rasterio"]
  else if ext == ".jp2" then some ["rasterio"]
  else if ext == ".jpeg2000" then some ["rasterio"]
  else none

/-- FORMAT_DISPLAY_NAMES from get_data_info.py. -/
def FORMAT_DISPLAY_NAMES (ext : String) : Option String :=
  if ext == ".nc" then some "NetCDF"
  else if ext == ".nc4" then some "NetCDF4"
  else if ext == ".netcdf" then some "NetCDF"
  else if ext == ".cdf" then some "CDF/NetCDF"
  else if ext == ".zarr" then some "Zarr"
  else if ext == ".h5" then some "HDF5"
  else if ext == ".hdf5" then some "HDF5"
  else if ext == ".grib" then some "GRIB"
  else if ext == ".grib2" then some "GRIB2"
  else if ext == ".grb" then some "GRIB"
  else if ext == ".tif" then some "GeoTIFF"
  else if ext == ".tiff" then some "GeoTIFF"
  else if ext == ".geotiff" then some "GeoTIFF"
  else if ext == ".jp2" then some "JPEG-2000"
  else if ext == ".jpeg2000" then some "JPEG-2000"
  else none

/-- ENGINE_PACKAGES from get_data_info.py. -/
def ENGINE_PACKAGES (engine : String) : Option String :=
  if engine == "netcdf4" then some "netCDF4"
  else if engine == "h5netcdf" then some "h5netcdf"
  else if engine == "scipy" then some "scipy"
  else if engine == "zarr" then some "zarr"
  else if engine == "h5py" then some "h5py"
  else if engine == "cfgrib" then some "cfgrib"
  else if engine == "rasterio" then some "rioxarray"
  else none

/-- DEFAULT_ENGINE_TO_FORCE_USE_OPEN_DATASET: every engine maps to False,
then cfgrib and rasterio are set to True. -/
def DEFAULT_ENGINE_TO_FORCE_USE_OPEN_DATASET (engine : String) : Bool :=
  engine == "cfgrib" || engine == "rasterio"

/-- check_package_availability (get_data_info.py): find_spec(name) is not
None, with no exception handling around the probe. -/
def check_package_availability (env : Env) (package_name : String) :
    Except PyError Bool :=
  match env.findSpec package_name with
  | .ok spec => .ok spec.isSome
  | .error e => .error e

/-- Exception classes caught by the standalone script
check_package_availability.py: ImportError, ModuleNotFoundError, ValueError. -/
def caughtByScriptProbe : PyError → Bool
  | .importError _ => true
  | .moduleNotFoundError _ => true
  | .valueError _ => true
  | _ => false

/-- check_package_availability (check_package_availability.py): probes each
name, swallowing ImportError/ModuleNotFoundError/ValueError as False. -/
def check_package_availability_script (env : Env) (package_names : List String) :
    Except PyError (List (String × Bool)) :=
  package_names.foldlM
    (fun acc package_name =>
      match env.findSpec package_name with
      | .ok spec => .ok (acc ++ [(package_name, spec.isSome)])
      | .error e =>
          if caughtByScriptProbe e then .ok (acc ++ [(package_name, false)])
          else .error e)
    []

/-- get_available_engines from get_data_info.py. -/
def get_available_engines (env : Env) (file_extension : String) :
    Except PyError (List String) :=
  match FORMAT_ENGINE_MAP file_extension with
  | none => .ok []
  | some engines =>
      engines.foldlM
        (fun acc engine =>
          match check_package_availability env ((ENGINE_PACKAGES engine).getD engine) with
          | .ok true => .ok (acc ++ [engine])
          | .ok false => .ok acc
          | .error e => .error e)
        []

/-- get_missing_packages from get_data_info.py. -/
def get_missing_packages (env : Env) (file_extension : String) :
    Except PyError (List String) :=
  match FORMAT_ENGINE_MAP file_extension with
  | none => .ok []
  | some engines =>
      engines.foldlM
        (fun acc engine =>
          let package_name := (ENGINE_PACKAGES engine).getD engine
          match check_package_availability env package_name with
          | .ok true => .ok acc
          | .ok false => .ok (acc ++ [package_name])
          | .error e => .error e)
        []

/-- detect_file_format from get_data_info.py. -/
def detect_file_format (env : Env) (file_path : PyPath) :
    Except PyError FileFormatInfo :=
  let ext := String.mk (file_path.suffix.toList.map Char.toLower)
  match get_available_engines env ext with
  | .error e => .error e
  | .ok available_engines =>
      match get_missing_packages env ext with
      | .error e => .error e
      | .ok missing_packages =>
          .ok ⟨ext, (FORMAT_DISPLAY_NAMES ext).getD "Unknown",
               available_engines, missing_packages⟩

/- Backend Resolver: open_datatree_with_fallback from get_data_info.py. -/

/-- can_use_datatree: xarray has open_datatree and the engine is not forced
to open_dataset. -/
def can_use_datatree (env : Env) (engine : String) : Bool :=
  env.hasOpenDatatree && !(DEFAULT_ENGINE_TO_FORCE_USE_OPEN_DATASET engine)

/-- Group-name determination of the non-tree branch: the netCDF4 or
h5netcdf auxiliary probe prepended with the root, else the root alone.
The availability probes and the group enumeration can raise; those
exceptions surface to the enclosing try of the engine attempt. -/
def computeGroups (env : Env) (engine : String) : Except PyError (List String) := do
  let netcdf4Avail ←
    if engine == "netcdf4" then check_package_availability env "netCDF4"
    else pure false
  if engine == "netcdf4" && netcdf4Avail then do
    let gs ← env.netcdf4Groups
    pure ("/" :: gs)
  else do
    let h5Avail ←
      if engine == "h5netcdf" then check_package_availability env "h5netcdf"
      else pure false
    if engine == "h5netcdf" && h5Avail then do
      let gs ← env.h5netcdfGroups
      pure ("/" :: gs)
    else pure ["/"]

/-- Evaluation of a Python comprehension over a list where each element
evaluation can raise: elements are evaluated left to right and the first
exception aborts the whole comprehension. -/
def exceptMapList (f : α → Except PyError β) : List α → Except PyError (List β)
  | [] => .ok []
  | a :: tl =>
      match f a with
      | .error e => .error e
      | .ok b =>
          match exceptMapList f tl with
          | .error e => .error e
          | .ok bs => .ok (b :: bs)

/-- The try body of one engine attempt: either a tree open, or the grouped
dict of flat opens (root opened without a group argument). -/
def tryOpenBody (env : Env) (engine : String) : Except PyError HandleM :=
  if can_use_datatree env engine then
    match env.openDatatree engine with
    | .ok t => .ok (.tree t)
    | .error e => .error e
  else do
    let groups ← computeGroups env engine
    let pairs ← exceptMapList (fun group =>
      if group == "/" then
        match env.openDataset engine with
        | .ok d => Except.ok (group, d)
        | .error e => Except.error e
      else
        match env.openDatasetGroup engine group with
        | .ok d => Except.ok (group, d)
        | .error e => Except.error e) groups
    pure (HandleM.dict pairs)

/- Per-engine outcome of one loop iteration: a successful return, a failure
   appended to the exception list (the loop continues), or a failure raised
   from inside the NotImplementedError handler (which escapes the loop,
   since an exception raised in an except block is not caught by the other
   handlers of the same try). -/
inductive EngineOutcome where
  | success (h : HandleM)
  | hardFail (e : PyError)
  | propagate (e : PyError)

def EngineOutcome.failureOf : EngineOutcome → Option PyError
  | .success _ => none
  | .hardFail e => some e
  | .propagate e => some e

/-- One full engine attempt: the try body, with NotImplementedError
answered by an unprotected flat open_dataset fallback whose own failure
propagates, and any other exception recorded for accumulation. -/
def attemptEngine (env : Env) (engine : String) : EngineOutcome :=
  match tryOpenBody env engine with
  | .ok h => .success h
  | .error (.notImplementedError _) =>
      match env.openDataset engine with
      | .ok xds => .success (.flat xds)
      | .error e => .propagate e
  | .error e => .hardFail e

/-- The resolver loop over available engines, accumulating the per-engine
exceptions; when all engines are exhausted, exceptions[-1] is raised. -/
def resolveLoop (env : Env) :
    List String → List PyError → Except PyError (HandleM × String)
  | [], exceptions =>
      match exceptions.getLast? with
      | some e => .error e
      | none => .error (.indexError "list index out of range")
  | engine :: rest, exceptions =>
      match attemptEngine env engine with
      | .success h => .ok (h, engine)
      | .hardFail e => resolveLoop env rest (exceptions ++ [e])
      | .propagate e => .error e

def noEnginesMessage (info : FileFormatInfo) : String :=
  "No engines available for " ++ info.extension ++ " files. Missing packages: "
    ++ String.intercalate ", " info.missing_packages

/-- open_datatree_with_fallback from get_data_info.py. -/
def open_datatree_with_fallback (env : Env) (file_format_info : FileFormatInfo) :
    Except PyError (HandleM × String) :=
  if !file_format_info.is_supported then
    .error (.importError (noEnginesMessage file_format_info))
  else
    resolveLoop env file_format_info.available_engines []

/- Plot Strategy Selector: detect_plotting_strategy from get_data_info.py.
   The spatial-dimension-name checks are commented out in the source; only
   rank and the leading extent decide. ndim and the dims list agree on
   length for every xarray variable, but the code reads both, so both are
   consulted here. -/
def detect_plotting_strategy (var : DataArrayM) : String :=
  let dims := var.dims
  let ndim := var.shape.length
  if ndim == 2 then
    if 2 ≤ dims.length then "2d_classic" else "default"
  else if ndim == 3 then
    if 2 ≤ dims.length then
      if var.shape.getD 0 0 == 1 then "2d_classic_isel" else "3d_col"
    else "default"
  else if ndim == 4 then
    if 2 ≤ dims.length then "4d_col_row" else "default"
  else "default"

/-- The rendering call create_plot issues for each strategy, including the
col_wrap = min(4, shape[0]) cap of the 3d_col branch and the row/col
assignment of the 4d branch. -/
def plot_call (var : DataArrayM) : PlotCall :=
  let strategy := detect_plotting_strategy var
  if strategy == "2d_classic" then .imshow2d
  else if strategy == "2d_classic_isel" then .imshow2dIsel (var.dims.getD 0 "")
  else if strategy == "3d_col" then
    .imshow3dCol (var.dims.getD 0 "") (min 4 (var.shape.getD 0 0))
  else if strategy == "4d_col_row" then
    .imshow4dColRow (var.dims.getD 0 "") (var.dims.getD 1 "")
  else .defaultPlot

/- PurePosixPath, modelled for the observations create_plot makes:
   str(path.parent) and path.stem.  String splitting is done at the
   character level so that every definition evaluates by reduction. -/

def splitOnChar (sep : Char) : List Char → List (List Char)
  | [] => [[]]
  | c :: tl =>
      match splitOnChar sep tl with
      | [] => [[]]
      | h :: t => if c = sep then [] :: h :: t else (c :: h) :: t

def posixParts (p : String) : List String :=
  (((splitOnChar '/' p.toList).map String.mk).filter (fun s => s != "" && s != "."))

def posixIsAbs (p : String) : Bool :=
  match p.toList with
  | '/' :: _ => true
  | _ => false

/-- PurePosixPath(p).name: the final component (empty for the root). -/
def posixName (p : String) : String :=
  (posixParts p).getLastD ""

/-- rfind of the dot inside a name. -/
def rfindDot (name : String) : Option Nat :=
  (name.toList.reverse.findIdx? (fun c => c == '.')).map
    (fun j => name.toList.length - 1 - j)

/-- pathlib stem logic on a final component: the part before the last dot,
provided that dot is neither leading nor trailing. -/
def stemOfName (name : String) : String :=
  match rfindDot name with
  | none => name
  | some i =>
      if 0 < i ∧ i < name.toList.length - 1 then String.mk (name.toList.take i)
      else name

/-- PurePosixPath(p).stem. -/
def posixStem (p : String) : String :=
  stemOfName (posixName p)

/-- str(PurePosixPath(p).parent). -/
def posixParentStr (p : String) : String :=
  let par := (posixParts p).dropLast
  if posixIsAbs p then "/" ++ String.intercalate "/" par
  else if par.isEmpty then "." else String.intercalate "/" par

/- Metadata Extractor data model, from the dataclasses of get_data_info.py. -/

structure VariableInfo where
  name : String
  dtype : String
  shape : List Nat
  dimensions : List String
  size_bytes : Nat
  attributes : List (String × PyVal)

structure CoordinateInfo where
  name : String
  dtype : String
  shape : List Nat
  dimensions : List String
  size_bytes : Nat
  attributes : List (String × PyVal)

/-- create_variable_info from get_data_info.py. -/
def create_variable_info (var_name : String) (var : DataArrayM) : VariableInfo :=
  ⟨var_name, var.dtype, var.shape, var.dims, var.nbytes, var.attrs⟩

/-- create_coord_info from get_data_info.py. -/
def create_coord_info (coord_name : String) (coord : DataArrayM) : CoordinateInfo :=
  ⟨coord_name, coord.dtype, coord.shape, coord.dims, coord.nbytes, coord.attrs⟩

structure FileInfoResultM where
  format_info : FileFormatInfo
  used_engine : String
  fileSize : Nat
  xarray_html_repr : String
  xarray_text_repr : String
  xarray_show_versions : String
  dimensions_flattened : List (String × List (String × Nat))
  variables_flattened : List (String × List VariableInfo)
  coordinates_flattened : List (String × List CoordinateInfo)
  attributes_flattened : List (String × List (String × PyVal))
  xarray_html_repr_flattened : List (String × String)
  xarray_text_repr_flattened : List (String × String)

structure FileInfoErrorM where
  error : String
  error_type : String
  suggestion : String
  format_info : FileFormatInfo
  xarray_show_versions : String

/- Accumulator of the per-group extraction loop of get_file_info; note that
   setdefault(...).append is only reached for groups with at least one
   coordinate (respectively variable), so such groups alone get an entry. -/
structure GroupAcc where
  dimensions : List (String × List (String × Nat))
  variablesAcc : List (String × List VariableInfo)
  coordinates : List (String × List CoordinateInfo)
  attributes : List (String × List (String × PyVal))
  htmlReprs : List (String × String)
  textReprs : List (String × String)

def emptyGroupAcc : GroupAcc := ⟨[], [], [], [], [], []⟩

/-- One iteration of the per-group loop: attributes and dimensions always,
coordinate and variable descriptors for their groups, then the per-group
text and markup representations (which may raise). -/
def extractGroupStep (acc : GroupAcc) (gx : String × DatasetM) :
    Except PyError GroupAcc := do
  let group := gx.1
  let xds := gx.2
  let attributes := acc.attributes ++ [(group, xds.attrs)]
  let dimensions := acc.dimensions ++ [(group, xds.dims)]
  let coordinates :=
    if xds.coords.isEmpty then acc.coordinates
    else acc.coordinates ++
      [(group, xds.coords.map (fun kv => create_coord_info kv.1 kv.2))]
  let variablesAcc :=
    if xds.dataVars.isEmpty then acc.variablesAcc
    else acc.variablesAcc ++
      [(group, xds.dataVars.map (fun kv => create_variable_info kv.1 kv.2))]
  let repr_text ← xds.reprText
  let repr_html ← xds.reprHtml
  pure ⟨dimensions, variablesAcc, coordinates, attributes,
        acc.htmlReprs ++ [(group, repr_html)], acc.textReprs ++ [(group, repr_text)]⟩

def extractGroups (flat : List (String × DatasetM)) : Except PyError GroupAcc :=
  flat.foldlM extractGroupStep emptyGroupAcc

def charListLe : List Char → List Char → Bool
  | [], _ => true
  | _ :: _, [] => false
  | a :: as, b :: bs =>
      if a < b then true else if b < a then false else charListLe as bs

/-- Lexicographic string comparison, evaluable by reduction. -/
def strLeB (a b : String) : Bool :=
  charListLe a.toList b.toList

def insertByKey (x : String × DatasetM) :
    List (String × DatasetM) → List (String × DatasetM)
  | [] => [x]
  | y :: tl => if strLeB x.1 y.1 then x :: y :: tl else y :: insertByKey x tl

/-- sorted(xdt.to_dict().items(), key=lambda x: x[0]): a stable sort by key. -/
def sortByKey : List (String × DatasetM) → List (String × DatasetM)
  | [] => []
  | x :: tl => insertByKey x (sortByKey tl)

def sepLine : String := String.mk (List.replicate 80 '-')

/-- The multi-group fallback representations: group-by-group concatenation
of the per-group reprs with separators (all text parts are evaluated
before the html parts, matching the two joins of the source). -/
def gfi_dict_joined (d : List (String × DatasetM)) :
    Except PyError (String × String × List (String × DatasetM)) := do
  let textParts ← exceptMapList (fun gx => do
      let s ← gx.2.reprText
      pure ("Group: " ++ gx.1 ++ "\n\n" ++ s ++ "\n\n")) d
  let htmlParts ← exceptMapList (fun gx => do
      let s ← gx.2.reprHtml
      pure ("<p>Group: " ++ gx.1 ++ "</p><br><br>" ++ s)) d
  pure (String.intercalate (sepLine ++ "\n\n") textParts,
        String.intercalate "<br><br>" htmlParts, d)

/-- Representations for the dict-of-datasets shape: a single root group is
rendered through the traditional dataset reprs, anything else through the
joined custom repr. -/
def gfi_dict_pre (d : List (String × DatasetM)) :
    Except PyError (String × String × List (String × DatasetM)) :=
  match d with
  | [(k, xds)] =>
      if k == "/" then do
        let repr_text ← xds.reprText
        let repr_html ← xds.reprHtml
        pure (repr_text, repr_html, d)
      else gfi_dict_joined d
  | _ => gfi_dict_joined d

/-- Representations and flattened dict for a tree handle.  A tree under an
engine whose can_use_datatree is false cannot be produced by the resolver;
Python would duck-type it as a mapping, modelled here through its
path-keyed dict view. -/
def gfi_tree_pre (env : Env) (engine : String) (t : DataTreeM) :
    Except PyError (String × String × List (String × DatasetM)) :=
  if can_use_datatree env engine then do
    let repr_text ← t.reprText
    let repr_html ← t.reprHtml
    pure (repr_text, repr_html, sortByKey t.toDict)
  else gfi_dict_pre t.toDict

def buildFileInfoResult (ffi : FileFormatInfo) (engine : String) (size : Nat)
    (repr_html repr_text versions : String) (acc : GroupAcc) : FileInfoResultM :=
  ⟨ffi, engine, size, repr_html, repr_text, versions,
   acc.dimensions, acc.variablesAcc, acc.coordinates, acc.attributes,
   acc.htmlReprs, acc.textReprs⟩

/-- The flat-dataset case of get_file_info:  the bare Dataset returned by
the NotImplementedError fallback is merely cast to DictOfDatasets, so the
duck-typed mapping interface of Dataset applies: its length is its number
of data variables, membership checks all variables, and iterating items()
yields (name, DataArray) pairs.  The per-group loop then evaluates
da.dims.items() on a DataArray, whose dims is a tuple of names, raising
AttributeError on the first iteration. -/
def gfi_try_flat (env : Env) (ffi : FileFormatInfo) (engine : String)
    (ds : DatasetM) : Except PyError FileInfoResultM := do
  let allVars := ds.dataVars ++ ds.coords
  let reprs ←
    match ds.dataVars, allVars.find? (fun kv => kv.1 == "/") with
    | [_], some kv => do
        let repr_text ← kv.2.reprText
        let repr_html ← kv.2.reprHtml
        pure (repr_text, repr_html)
    | dvs, _ => do
        let textParts ← exceptMapList (fun gda => do
            let s ← gda.2.reprText
            pure ("Group: " ++ gda.1 ++ "\n\n" ++ s ++ "\n\n")) dvs
        let htmlParts ← exceptMapList (fun gda => do
            let s ← gda.2.reprHtml
            pure ("<p>Group: " ++ gda.1 ++ "</p><br><br>" ++ s)) dvs
        pure (String.intercalate (sepLine ++ "\n\n") textParts,
              String.intercalate "<br><br>" htmlParts)
  match ds.dataVars with
  | [] =>
      pure (buildFileInfoResult ffi engine env.fileSize reprs.2 reprs.1
        env.showVersions emptyGroupAcc)
  | _ :: _ =>
      throw (.attributeError "\x27tuple\x27 object has no attribute \x27items\x27")

/-- The body of the post-open try of get_file_info, up to and excluding the
close block: representations, flattening, and per-group extraction. -/
def gfi_try (env : Env) (ffi : FileFormatInfo) (engine : String) :
    HandleM → Except PyError FileInfoResultM
  | .flat ds => gfi_try_flat env ffi engine ds
  | .tree t => do
      let pre ← gfi_tree_pre env engine t
      let acc ← extractGroups pre.2.2
      pure (buildFileInfoResult ffi engine env.fileSize pre.2.1 pre.1
        env.showVersions acc)
  | .dict d => do
      let pre ← gfi_dict_pre d
      let acc ← extractGroups pre.2.2
      pure (buildFileInfoResult ffi engine env.fileSize pre.2.1 pre.1
        env.showVersions acc)

/-- The close block: one close for a tree handle, one close per entry for a
dict handle; closing a bare dataset iterates its data variables. -/
def closeAll : HandleM → List String
  | .tree _ => ["<datatree>"]
  | .dict d => d.map Prod.fst
  | .flat ds => ds.dataVars.map Prod.fst

structure GFIOut where
  result : Except PyError (Sum FileInfoResultM FileInfoErrorM)
  closed : List String

/-- Whether except ImportError catches the exception (ModuleNotFoundError
subclasses ImportError). -/
def isImportErrorKind : PyError → Bool
  | .importError _ => true
  | .moduleNotFoundError _ => true
  | _ => false

def missingDepsError (ffi : FileFormatInfo) (versions : String) : FileInfoErrorM :=
  ⟨"Missing dependencies for " ++ ffi.display_name ++ " files: "
      ++ String.intercalate ", " ffi.missing_packages,
   "ImportError",
   "Install required packages: pip install " ++ String.intercalate " " ffi.missing_packages,
   ffi, versions⟩

def decodeFailureSuggestion : String :=
  "Check if the file is corrupted or in an unsupported format"

/-- get_file_info from get_data_info.py.  The result field is the returned
value (or an exception escaping the function, since only ImportError is
caught around the open and the post-open handler catches Exception); the
closed field lists what the close block actually closed before returning. -/
def get_file_info (env : Env) (file_path : PyPath) : GFIOut :=
  match detect_file_format env file_path with
  | .error e => ⟨.error e, []⟩
  | .ok ffi =>
      match open_datatree_with_fallback env ffi with
      | .error e =>
          if isImportErrorKind e then
            ⟨.ok (.inr (missingDepsError ffi env.showVersions)), []⟩
          else ⟨.error e, []⟩
      | .ok (h, used_engine) =>
          match gfi_try env ffi used_engine h with
          | .ok info => ⟨.ok (.inl info), closeAll h⟩
          | .error e =>
              ⟨.ok (.inr ⟨e.message, e.typeName, decodeFailureSuggestion, ffi,
                env.showVersions⟩), []⟩

/- create_plot from get_data_info.py. -/

structure CreatePlotResultM where
  plot_data : String
  format_info : FileFormatInfo

structure CreatePlotErrorM where
  error : String
  format_info : FileFormatInfo

structure PlotOut where
  result : Except PyError (Sum CreatePlotResultM CreatePlotErrorM)
  closed : List String

/- How the try block of create_plot exits: an explicit return (result or
   error envelope, with whatever the close block closed), or an exception
   together with the binding state of the local file_format_info at raise
   time (the except handler reads that local). -/
inductive PlotTryExit where
  | ret (v : Sum CreatePlotResultM CreatePlotErrorM) (closed : List String)
  | raised (e : PyError) (boundFfi : Option FileFormatInfo)

/-- Group resolution: tree handles are indexed by path and converted to a
dataset; anything else is subscripted as a dict.  Subscripting the bare
flat dataset of the NotImplementedError fallback hits Dataset.__getitem__:
a hit returns a DataArray (and the later .data_vars access on it raises
AttributeError), a miss raises KeyError. -/
def lookupGroup (env : Env) (engine : String) (h : HandleM) (group_name : String) :
    Except PyError DatasetM :=
  if can_use_datatree env engine && h.isTree then
    match h with
    | .tree t =>
        match t.toDict.find? (fun kv => kv.1 == group_name) with
        | some kv => .ok kv.2
        | none => .error (.keyError group_name)
    | _ => .error (.keyError group_name)
  else
    match h with
    | .dict d =>
        match d.find? (fun kv => kv.1 == group_name) with
        | some kv => .ok kv.2
        | none => .error (.keyError group_name)
    | .flat ds =>
        if ((ds.dataVars ++ ds.coords).find? (fun kv => kv.1 == group_name)).isSome then
          .error (.attributeError
            "\x27DataArray\x27 object has no attribute \x27data_vars\x27")
        else .error (.keyError group_name)
    | .tree t =>
        match t.toDict.find? (fun kv => kv.1 == group_name) with
        | some kv => .ok kv.2
        | none => .error (.keyError group_name)

/-- Variable lookup: first among the data variables, then the coordinates. -/
def findVariable (group : DatasetM) (variable_name : String) : Option DataArrayM :=
  match group.dataVars.find? (fun kv => kv.1 == variable_name) with
  | some kv => some kv.2
  | none => (group.coords.find? (fun kv => kv.1 == variable_name)).map Prod.snd

/-- The try block of create_plot.  The matplotlib style application is
omitted: its exceptions are caught locally and a default style substituted,
with no effect on the returned value. -/
def create_plot_try (env : Env) (file_path : PyPath)
    (variable_path plot_type style : String) : PlotTryExit :=
  if plot_type != "auto" then
    .raised (.valueError ("Invalid plot type: " ++ plot_type)) none
  else
    match detect_file_format env file_path with
    | .error e => .raised e none
    | .ok ffi =>
        if !ffi.is_supported then
          .ret (.inr ⟨noEnginesMessage ffi, ffi⟩) []
        else
          match check_package_availability env "matplotlib" with
          | .error e => .raised e (some ffi)
          | .ok false => .ret (.inr ⟨"Matplotlib is not installed", ffi⟩) []
          | .ok true =>
              match open_datatree_with_fallback env ffi with
              | .error e => .raised e (some ffi)
              | .ok (h, used_engine) =>
                  let group_name := posixParentStr variable_path
                  let variable_name := posixStem variable_path
                  match lookupGroup env used_engine h group_name with
                  | .error e => .raised e (some ffi)
                  | .ok group =>
                      match findVariable group variable_name with
                      | none =>
                          .ret (.inr ⟨"Variable \x27" ++ variable_name
                              ++ "\x27 not found in dataset", ffi⟩)
                            (closeAll h)
                      | some var =>
                          match env.render (plot_call var) with
                          | .error e => .raised e (some ffi)
                          | .ok image_base64 =>
                              .ret (.inl ⟨image_base64, ffi⟩) (closeAll h)

/-- The message of the generic except handler of create_plot. -/
def createPlotHandlerMessage (e : PyError) (file_path : PyPath)
    (variable_path plot_type : String) : String :=
  "Error creating plot: " ++ e.reprP ++ " (file_path=" ++ file_path.reprS
    ++ " variable_path=\x27" ++ variable_path ++ "\x27 plot_type=\x27"
    ++ plot_type ++ "\x27)"

/-- create_plot from get_data_info.py: the try block wrapped by the generic
except handler.  That handler itself reads the local file_format_info; if
the exception was raised before the local was bound, the handler raises
UnboundLocalError, which escapes create_plot uncaught. -/
def create_plot (env : Env) (file_path : PyPath)
    (variable_path plot_type style : String) : PlotOut :=
  match create_plot_try env file_path variable_path plot_type style with
  | .ret v closed => ⟨.ok v, closed⟩
  | .raised e (some ffi) =>
      ⟨.ok (.inr ⟨createPlotHandlerMessage e file_path variable_path plot_type, ffi⟩), []⟩
  | .raised _ none => ⟨.error (.unboundLocalError "file_format_info"), []⟩

/- Helper lemmas about the resolver loop. -/

theorem resolveLoop_skip (env : Env) :
    ∀ (pre : List String) (excs : List PyError),
      (∀ e ∈ pre, ∃ er, attemptEngine env e = .hardFail er) →
      ∀ ks, ∃ excs2, resolveLoop env (pre ++ ks) excs = resolveLoop env ks excs2 := by
  intro pre
  induction pre with
  | nil => intro excs _ ks; exact ⟨excs, rfl⟩
  | cons e pre ih =>
      intro excs hall ks
      obtain ⟨er, her⟩ := hall e (List.mem_cons_self e pre)
      have h2 : ∀ x ∈ pre, ∃ er, attemptEngine env x = .hardFail er :=
        fun x hx => hall x (List.mem_cons_of_mem e hx)
      obtain ⟨excs2, heq⟩ := ih (excs ++ [er]) h2 ks
      refine ⟨excs2, ?_⟩
      rw [List.cons_append]
      simp only [resolveLoop, her]
      exact heq

theorem resolveLoop_last_fails (env : Env) (last : String) (excs : List PyError)
    (er : PyError) (hf : (attemptEngine env last).failureOf = some er) :
    resolveLoop env [last] excs = .error er := by
  cases hatt : attemptEngine env last with
  | success h => rw [hatt] at hf; simp [EngineOutcome.failureOf] at hf
  | hardFail e2 =>
      rw [hatt] at hf
      simp only [EngineOutcome.failureOf, Option.some.injEq] at hf
      subst hf
      simp [resolveLoop, hatt, List.getLast?_concat]
  | propagate e2 =>
      rw [hatt] at hf
      simp only [EngineOutcome.failureOf, Option.some.injEq] at hf
      subst hf
      simp [resolveLoop, hatt]

theorem resolveLoop_ok_inv (env : Env) :
    ∀ (engines : List String) (excs : List PyError) (h : HandleM) (eng : String),
      resolveLoop env engines excs = .ok (h, eng) →
      attemptEngine env eng = .success h := by
  intro engines
  induction engines with
  | nil =>
      intro excs h eng hok
      cases hl : excs.getLast? <;> simp [resolveLoop, hl] at hok
  | cons e rest ih =>
      intro excs h eng hok
      cases hatt : attemptEngine env e with
      | success h2 =>
          simp only [resolveLoop, hatt] at hok
          obtain ⟨h1, h2⟩ := Prod.mk.injEq .. ▸ Except.ok.injEq .. ▸ hok
          cases hok
          exact hatt
      | hardFail e2 =>
          simp only [resolveLoop, hatt] at hok
          exact ih _ h eng hok
      | propagate e2 => simp [resolveLoop, hatt] at hok

/-- C1: with an empty availableBackends list the Backend Resolver fails
with the ImportError naming the missing packages, and when every candidate
of the list was attempted and failed (all but the last one recorded into
the accumulated exception list), the resolver re-raises exactly the
terminal error of the last attempted candidate. -/
theorem C1_resolver_failure_contract (env : Env) (info : FileFormatInfo) :
    (info.available_engines = [] →
      open_datatree_with_fallback env info
        = .error (.importError (noEnginesMessage info))) ∧
    (noEnginesMessage info
        = "No engines available for " ++ info.extension
          ++ " files. Missing packages: "
          ++ String.intercalate ", " info.missing_packages) ∧
    (∀ pre last, info.available_engines = pre ++ [last] →
      (∀ e ∈ pre, ∃ er, attemptEngine env e = .hardFail er) →
      ∀ er, (attemptEngine env last).failureOf = some er →
      open_datatree_with_fallback env info = .error er) := by
  refine ⟨?_, rfl, ?_⟩
  · intro h
    simp [open_datatree_with_fallback, FileFormatInfo.is_supported, h]
  · intro pre last hsplit hpre er hlast
    have hfi : info.is_supported = true := by
      simp [FileFormatInfo.is_supported, hsplit]
    obtain ⟨excs2, heq⟩ := resolveLoop_skip env pre [] hpre [last]
    simp only [open_datatree_with_fallback, hfi, Bool.not_true, Bool.false_eq_true,
      if_neg, ite_false, hsplit]
    rw [heq]
    exact resolveLoop_last_fails env last excs2 er hlast

def dsPlain : DatasetM := ⟨[], [], [], [], .ok "ds", .ok "<ds>"⟩

def treePlain : DataTreeM := ⟨dsPlain, [], .ok "tree", .ok "<tree>"⟩

def envC1w : Env :=
  ⟨true,
   fun _ => .ok (some ()),
   fun e => if e == "netcdf4" then .error (.osError "e1") else .error (.osError "e2"),
   fun _ => .error (.osError "never"),
   fun _ _ => .error (.osError "never"),
   .ok [], .ok [], fun _ => .ok "PNG", 0, "versions"⟩

/-- C1 witness: the theorem applied at a format with no available engine
and at a format whose two candidates both fail, the second one last. -/
theorem C1_resolver_failure_contract_witness :
    open_datatree_with_fallback envC1w ⟨".grib", "GRIB", [], ["cfgrib"]⟩
      = .error (.importError (noEnginesMessage ⟨".grib", "GRIB", [], ["cfgrib"]⟩))
    ∧ open_datatree_with_fallback envC1w ⟨".nc", "NetCDF", ["netcdf4", "scipy"], []⟩
      = .error (.osError "e2") := by
  constructor
  · exact (C1_resolver_failure_contract envC1w ⟨".grib", "GRIB", [], ["cfgrib"]⟩).1 rfl
  · refine (C1_resolver_failure_contract envC1w
      ⟨".nc", "NetCDF", ["netcdf4", "scipy"], []⟩).2.2 ["netcdf4"] "scipy" rfl ?_
      (.osError "e2") rfl
    intro e he
    simp only [List.mem_singleton] at he
    subst he
    exact ⟨.osError "e1", rfl⟩

/- C2: whether every failure inside a candidate attempt is accumulated.
   The NotImplementedError handler performs its degraded flat open outside
   any protection; a failure there escapes the resolver even though a later
   candidate would succeed. -/

def envC2x : Env :=
  ⟨true,
   fun _ => .ok (some ()),
   fun e =>
     if e == "netcdf4" then .error (.notImplementedError "datatree is not implemented")
     else .ok treePlain,
   fun e =>
     if e == "netcdf4" then .error (.osError "flat open failed")
     else .ok dsPlain,
   fun _ _ => .error (.osError "never"),
   .ok [], .ok [], fun _ => .ok "PNG", 0, "versions"⟩

/-- C2 counterexample: with two available candidates, the first one raising
a not-implemented signal and then failing its degraded flat open, the
resolver propagates that flat-open failure directly even though the second
candidate would have succeeded; the escaping failure is not the final
all-candidates-exhausted error. -/
theorem C2_counterexample :
    open_datatree_with_fallback envC2x ⟨".nc", "NetCDF", ["netcdf4", "h5netcdf"], []⟩
      = .error (.osError "flat open failed")
    ∧ attemptEngine envC2x "h5netcdf" = .success (.tree treePlain) :=
  ⟨rfl, rfl⟩

/-- C2 (amended): a failure of the try body of a candidate attempt is
caught and accumulated and the loop moves on, so a later successful
candidate is returned; but a failure of the degraded flat open performed
inside the NotImplementedError handler propagates out of the resolver
immediately, aborting the remaining candidates. -/
theorem C2_attempt_propagation (env : Env) (info : FileFormatInfo)
    (pre rest : List String) (k : String)
    (hengines : info.available_engines = pre ++ k :: rest)
    (hpre : ∀ e ∈ pre, ∃ er, attemptEngine env e = .hardFail er) :
    (∀ er, attemptEngine env k = .propagate er →
       open_datatree_with_fallback env info = .error er) ∧
    (∀ h, attemptEngine env k = .success h →
       open_datatree_with_fallback env info = .ok (h, k)) := by
  have hfi : info.is_supported = true := by
    simp [FileFormatInfo.is_supported, hengines]
  obtain ⟨excs2, heq⟩ := resolveLoop_skip env pre [] hpre (k :: rest)
  constructor
  · intro er hatt
    simp only [open_datatree_with_fallback, hfi, Bool.not_true, ite_false, hengines]
    rw [heq]
    simp [resolveLoop, hatt]
  · intro h hatt
    simp only [open_datatree_with_fallback, hfi, Bool.not_true, ite_false, hengines]
    rw [heq]
    simp [resolveLoop, hatt]

def envC2y : Env :=
  ⟨true,
   fun _ => .ok (some ()),
   fun e =>
     if e == "netcdf4" then .error (.osError "hard failure")
     else .ok treePlain,
   fun _ => .ok dsPlain,
   fun _ _ => .error (.osError "never"),
   .ok [], .ok [], fun _ => .ok "PNG", 0, "versions"⟩

/-- C2 witness: the amended theorem applied to a propagating first
candidate and to an accumulated failure followed by a success. -/
theorem C2_attempt_propagation_witness :
    open_datatree_with_fallback envC2x ⟨".nc", "NetCDF", ["netcdf4", "h5netcdf"], []⟩
      = .error (.osError "flat open failed")
    ∧ open_datatree_with_fallback envC2y ⟨".nc", "NetCDF", ["netcdf4", "h5netcdf"], []⟩
      = .ok (.tree treePlain, "h5netcdf") := by
  constructor
  · exact (C2_attempt_propagation envC2x ⟨".nc", "NetCDF", ["netcdf4", "h5netcdf"], []⟩
      [] ["h5netcdf"] "netcdf4" rfl (by intro e he; simp at he)).1
      (.osError "flat open failed") rfl
  · refine (C2_attempt_propagation envC2y ⟨".nc", "NetCDF", ["netcdf4", "h5netcdf"], []⟩
      ["netcdf4"] [] "h5netcdf" rfl ?_).2 (.tree treePlain) rfl
    intro e he
    simp only [List.mem_singleton] at he
    subst he
    exact ⟨.osError "hard failure", rfl⟩

/- Helper lemmas about the shapes a successful open can produce. -/

theorem computeGroups_root (env : Env) (engine : String) (groups : List String)
    (h : computeGroups env engine = .ok groups) : ∃ tl, groups = "/" :: tl := by
  unfold computeGroups at h
  simp only [bind, Except.bind, pure, Except.pure] at h
  repeat' split at h
  all_goals cases h
  all_goals exact ⟨_, rfl⟩

theorem exceptMapList_keys {β : Type} (f : String → Except PyError (String × β))
    (hf : ∀ g p, f g = .ok p → p.1 = g) :
    ∀ (groups : List String) (pairs : List (String × β)),
      exceptMapList f groups = .ok pairs → pairs.map Prod.fst = groups := by
  intro groups
  induction groups with
  | nil =>
      intro pairs h
      simp only [exceptMapList] at h
      cases h
      rfl
  | cons g tl ih =>
      intro pairs h
      simp only [exceptMapList] at h
      cases hfg : f g with
      | error e => rw [hfg] at h; cases h
      | ok p =>
          rw [hfg] at h
          cases hrec : exceptMapList f tl with
          | error e => rw [hrec] at h; cases h
          | ok bs =>
              rw [hrec] at h
              cases h
              simp [List.map_cons, hf g p hfg, ih bs hrec]

theorem tryOpenBody_ok_shape (env : Env) (engine : String) (h : HandleM)
    (hok : tryOpenBody env engine = .ok h) :
    (∃ t, h = .tree t) ∨ (∃ pairs, h = .dict pairs ∧ "/" ∈ pairs.map Prod.fst) := by
  unfold tryOpenBody at hok
  split at hok
  · cases hod : env.openDatatree engine with
    | ok t => rw [hod] at hok; cases hok; exact .inl ⟨t, rfl⟩
    | error e => rw [hod] at hok; cases hok
  · simp only [bind, Except.bind, pure, Except.pure] at hok
    split at hok
    · cases hok
    · rename_i groups hcg
      split at hok
      · cases hok
      · rename_i pairs hml
        cases hok
        refine .inr ⟨pairs, rfl, ?_⟩
        have hkeys := exceptMapList_keys _ ?_ groups pairs hml
        · obtain ⟨tl, htl⟩ := computeGroups_root env engine groups hcg
          rw [hkeys, htl]
          exact List.mem_cons_self _ _
        · intro g p hp
          split at hp
          · cases hods : env.openDataset engine with
            | ok d => rw [hods] at hp; cases hp; rfl
            | error e => rw [hods] at hp; cases hp
          · cases hodg : env.openDatasetGroup engine g with
            | ok d => rw [hodg] at hp; cases hp; rfl
            | error e => rw [hodg] at hp; cases hp

theorem attemptEngine_success_inv (env : Env) (engine : String) (h : HandleM)
    (hs : attemptEngine env engine = .success h) :
    tryOpenBody env engine = .ok h ∨
    (∃ ds, h = .flat ds ∧ env.openDataset engine = .ok ds ∧
      ∃ m, tryOpenBody env engine = .error (.notImplementedError m)) := by
  unfold attemptEngine at hs
  cases htb : tryOpenBody env engine with
  | ok h2 => rw [htb] at hs; cases hs; exact .inl rfl
  | error e =>
      rw [htb] at hs
      cases e
      case notImplementedError m =>
        cases hod : env.openDataset engine with
        | ok ds => rw [hod] at hs; cases hs; exact .inr ⟨ds, rfl, rfl, m, rfl⟩
        | error e2 => rw [hod] at hs; cases hs
      all_goals exact EngineOutcome.noConfusion hs

/-- C3 (amended): whenever the resolver succeeds with a tree or with a
grouped dict, the group-keyed mapping handed downstream contains the root
group "/"; but the single flat table produced by the NotImplementedError
fallback is returned as a bare dataset, not wrapped as a root-keyed
mapping, before downstream components see it. -/
theorem C3_root_group_present (env : Env) (info : FileFormatInfo) (h : HandleM)
    (engine : String)
    (hopen : open_datatree_with_fallback env info = .ok (h, engine)) :
    (∀ m, h.asGroupMapping = some m → "/" ∈ m.map Prod.fst) ∧
    (∀ ds, h = .flat ds →
      env.openDataset engine = .ok ds ∧
      ∃ m, tryOpenBody env engine = .error (.notImplementedError m)) := by
  have hres : resolveLoop env info.available_engines [] = .ok (h, engine) := by
    unfold open_datatree_with_fallback at hopen
    split at hopen
    · cases hopen
    · exact hopen
  have hsucc := resolveLoop_ok_inv env info.available_engines [] h engine hres
  have hinv := attemptEngine_success_inv env engine h hsucc
  constructor
  · intro m hm
    cases hinv with
    | inl htb =>
        have hshape := tryOpenBody_ok_shape env engine h htb
        cases hshape with
        | inl ht =>
            obtain ⟨t, rfl⟩ := ht
            simp only [HandleM.asGroupMapping, Option.some.injEq] at hm
            subst hm
            simp [DataTreeM.toDict]
        | inr hd =>
            obtain ⟨pairs, rfl, hmem⟩ := hd
            simp only [HandleM.asGroupMapping, Option.some.injEq] at hm
            subst hm
            exact hmem
    | inr hflat =>
        obtain ⟨ds, rfl, _⟩ := hflat
        simp [HandleM.asGroupMapping] at hm
  · intro ds hds
    subst hds
    cases hinv with
    | inl htb =>
        have hshape := tryOpenBody_ok_shape env engine _ htb
        rcases hshape with ⟨t, ht⟩ | ⟨pairs, hp, _⟩
        · cases ht
        · cases hp
    | inr h2 =>
        obtain ⟨ds2, heq, hod, m, htb⟩ := h2
        cases heq
        exact ⟨hod, m, htb⟩

def envC3x : Env :=
  ⟨true,
   fun _ => .ok (some ()),
   fun _ => .error (.notImplementedError "datatree is not implemented"),
   fun _ => .ok dsPlain,
   fun _ _ => .error (.osError "never"),
   .ok [], .ok [], fun _ => .ok "PNG", 0, "versions"⟩

/-- C3 counterexample: a well-formed file whose only available backend
signals not-implemented for trees and then opens flat successfully makes
the pipeline hand downstream a bare dataset, not the mapping containing
the root group "/" that the claim requires. -/
theorem C3_counterexample :
    open_datatree_with_fallback envC3x ⟨".nc", "NetCDF", ["netcdf4"], []⟩
      = .ok (.flat dsPlain, "netcdf4")
    ∧ (HandleM.flat dsPlain).asGroupMapping = none :=
  ⟨rfl, rfl⟩

def envC3w : Env :=
  ⟨true,
   fun _ => .ok (some ()),
   fun _ => .ok treePlain,
   fun _ => .ok dsPlain,
   fun _ _ => .error (.osError "never"),
   .ok [], .ok [], fun _ => .ok "PNG", 0, "versions"⟩

/-- C3 witness: the amended theorem applied to a successful tree open. -/
theorem C3_root_group_present_witness :
    open_datatree_with_fallback envC3w ⟨".nc", "NetCDF", ["netcdf4"], []⟩
      = .ok (.tree treePlain, "netcdf4")
    ∧ "/" ∈ (DataTreeM.toDict treePlain).map Prod.fst := by
  refine ⟨rfl, ?_⟩
  exact (C3_root_group_present envC3w ⟨".nc", "NetCDF", ["netcdf4"], []⟩
    (.tree treePlain) "netcdf4" rfl).1 (DataTreeM.toDict treePlain) rfl

/- C5: behaviour of the forced-flat path and of group enumeration. -/

def envC5x : Env :=
  ⟨true,
   fun _ => .ok (some ()),
   fun _ => .error (.osError "tree never attempted"),
   fun e => if e == "cfgrib" then .ok dsPlain else .error (.osError "never"),
   fun _ _ => .ok dsPlain,
   .ok ["group1", "group2"], .ok ["group1", "group2"],
   fun _ => .ok "PNG", 0, "versions"⟩

/-- C5 counterexample: a grouped file declaring two subgroups plus root,
opened with the forcesFlatOpen backend cfgrib, yields a mapping with the
single key "/" — the auxiliary group probe exists only for the netcdf4 and
h5netcdf engines, so it is never consulted for a forced-flat backend, and
the claimed three keys "/", "/group1", "/group2" do not appear. -/
theorem C5_counterexample :
    envC5x.netcdf4Groups = .ok ["group1", "group2"]
    ∧ open_datatree_with_fallback envC5x ⟨".grib", "GRIB", ["cfgrib"], []⟩
      = .ok (.dict [("/", dsPlain)], "cfgrib")
    ∧ [("/", dsPlain)].map Prod.fst ≠ ["/", "/group1", "/group2"] :=
  ⟨rfl, rfl, by decide⟩

/-- C5 (amended): for a forcesFlatOpen backend (cfgrib or rasterio) the
tree-open step is skipped and, since the auxiliary group probe only exists
for the netcdf4 and h5netcdf engines, only the root "/" is opened as a
single flat table wrapped as a one-entry mapping; group enumeration
happens only when netcdf4 (or h5netcdf) takes the non-tree path because
open_datatree is unavailable, and it then produces the keys "/", "group1",
"group2" — the bare subgroup names, not slash-prefixed paths. -/
theorem C5_forced_flat_groups (env : Env) :
    (∀ engine d, DEFAULT_ENGINE_TO_FORCE_USE_OPEN_DATASET engine = true →
       env.openDataset engine = .ok d →
       attemptEngine env engine = .success (.dict [("/", d)])) ∧
    (∀ d0 d1 d2,
       env.hasOpenDatatree = false →
       check_package_availability env "netCDF4" = .ok true →
       env.netcdf4Groups = .ok ["group1", "group2"] →
       env.openDataset "netcdf4" = .ok d0 →
       env.openDatasetGroup "netcdf4" "group1" = .ok d1 →
       env.openDatasetGroup "netcdf4" "group2" = .ok d2 →
       attemptEngine env "netcdf4"
         = .success (.dict [("/", d0), ("group1", d1), ("group2", d2)])) := by
  constructor
  · intro engine d hforce hopen
    have hcase : engine = "cfgrib" ∨ engine = "rasterio" := by
      unfold DEFAULT_ENGINE_TO_FORCE_USE_OPEN_DATASET at hforce
      rcases (Bool.or_eq_true _ _).mp hforce with h | h
      · exact .inl (eq_of_beq h)
      · exact .inr (eq_of_beq h)
    have hcu : can_use_datatree env engine = false := by
      rcases hcase with rfl | rfl <;>
        simp [can_use_datatree, DEFAULT_ENGINE_TO_FORCE_USE_OPEN_DATASET]
    rcases hcase with rfl | rfl <;>
      simp [attemptEngine, tryOpenBody, hcu, computeGroups, exceptMapList,
        hopen, bind, Except.bind, pure, Except.pure, check_package_availability]
  · intro d0 d1 d2 hattr hcp hgr hop0 hop1 hop2
    have hcu : can_use_datatree env "netcdf4" = false := by
      simp [can_use_datatree, hattr]
    simp [attemptEngine, tryOpenBody, hcu, computeGroups, exceptMapList,
      hcp, hgr, hop0, hop1, hop2, bind, Except.bind, pure, Except.pure]

def envC5w : Env :=
  ⟨false,
   fun _ => .ok (some ()),
   fun _ => .error (.osError "no open_datatree attribute"),
   fun _ => .ok dsPlain,
   fun _ _ => .ok dsPlain,
   .ok ["group1", "group2"], .ok [],
   fun _ => .ok "PNG", 0, "versions"⟩

/-- C5 witness: the amended theorem applied to the forced-flat cfgrib
attempt and to a netcdf4 attempt with working group enumeration. -/
theorem C5_forced_flat_groups_witness :
    attemptEngine envC5x "cfgrib" = .success (.dict [("/", dsPlain)])
    ∧ attemptEngine envC5w "netcdf4"
      = .success (.dict [("/", dsPlain), ("group1", dsPlain), ("group2", dsPlain)]) := by
  constructor
  · exact (C5_forced_flat_groups envC5x).1 "cfgrib" dsPlain rfl rfl
  · exact (C5_forced_flat_groups envC5w).2 dsPlain dsPlain dsPlain rfl rfl rfl rfl rfl rfl

/- C4: what get_file_info does when a post-open step raises. -/

/-- C4 (amended): when the file opens successfully (here as a
single-root grouped dict) and a post-open step raises, the request returns
an error envelope whose error_type names the raised exception and whose
suggestion is the check-file-integrity message — but the opened handles
are NOT closed before the error is returned; the close block only runs on
the success path. -/
theorem C4_post_open_failure (env : Env) (path : PyPath) (ffi : FileFormatInfo)
    (engine : String) (ds : DatasetM)
    (hd : detect_file_format env path = .ok ffi)
    (ho : open_datatree_with_fallback env ffi = .ok (.dict [("/", ds)], engine)) :
    (∀ e, ds.reprText = .error e →
       get_file_info env path
         = ⟨.ok (.inr ⟨e.message, e.typeName, decodeFailureSuggestion, ffi,
             env.showVersions⟩), []⟩) ∧
    (∀ info, gfi_try env ffi engine (.dict [("/", ds)]) = .ok info →
       get_file_info env path = ⟨.ok (.inl info), ["/"]⟩) := by
  constructor
  · intro e hr
    simp [get_file_info, hd, ho, gfi_try, gfi_dict_pre, hr,
      bind, Except.bind]
  · intro info hinfo
    simp [get_file_info, hd, ho, hinfo, closeAll]

def dsC4 : DatasetM := ⟨[], [], [], [], .error (.osError "kaboom"), .ok "<ds>"⟩

def envC4x : Env :=
  ⟨true,
   fun _ => .ok (some ()),
   fun _ => .error (.osError "unused"),
   fun e => if e == "cfgrib" then .ok dsC4 else .error (.osError "never"),
   fun _ _ => .error (.osError "never"),
   .ok [], .ok [], fun _ => .ok "PNG", 77, "versions"⟩

/-- C4 counterexample: the file opens successfully as one grouped dataset,
the text-representation step then raises, and get_file_info returns the
reclassified error envelope with nothing closed — the close block never
ran, although one dataset handle was open. -/
theorem C4_counterexample :
    get_file_info envC4x ⟨".grib", "PosixPath(f)"⟩
      = ⟨.ok (.inr ⟨"kaboom", "OSError", decodeFailureSuggestion,
          ⟨".grib", "GRIB", ["cfgrib"], []⟩, "versions"⟩), []⟩
    ∧ closeAll (.dict [("/", dsC4)]) = ["/"] :=
  ⟨rfl, rfl⟩

def envC4w : Env :=
  ⟨true,
   fun _ => .ok (some ()),
   fun _ => .error (.osError "unused"),
   fun e => if e == "cfgrib" then .ok dsPlain else .error (.osError "never"),
   fun _ _ => .error (.osError "never"),
   .ok [], .ok [], fun _ => .ok "PNG", 5, "versions"⟩

def infoC4w : FileInfoResultM :=
  ⟨⟨".grib", "GRIB", ["cfgrib"], []⟩, "cfgrib", 5, "<ds>", "ds", "versions",
   [("/", [])], [], [], [("/", [])], [("/", "<ds>")], [("/", "ds")]⟩

/-- C4 witness: the amended theorem applied to a failing and a succeeding
post-open phase. -/
theorem C4_post_open_failure_witness :
    get_file_info envC4x ⟨".grib", "PosixPath(f)"⟩
      = ⟨.ok (.inr ⟨"kaboom", "OSError", decodeFailureSuggestion,
          ⟨".grib", "GRIB", ["cfgrib"], []⟩, "versions"⟩), []⟩
    ∧ get_file_info envC4w ⟨".grib", "PosixPath(f)"⟩
      = ⟨.ok (.inl infoC4w), ["/"]⟩ := by
  constructor
  · exact (C4_post_open_failure envC4x ⟨".grib", "PosixPath(f)"⟩
      ⟨".grib", "GRIB", ["cfgrib"], []⟩ "cfgrib" dsC4 rfl rfl).1 (.osError "kaboom") rfl
  · exact (C4_post_open_failure envC4w ⟨".grib", "PosixPath(f)"⟩
      ⟨".grib", "GRIB", ["cfgrib"], []⟩ "cfgrib" dsPlain rfl rfl).2 infoC4w rfl

/- C6: the rank-3 plotting strategy decision. -/

/-- C6: for a rank-3 variable the single-panel-after-index-select strategy
(2d_classic_isel) is chosen exactly when the first axis has extent 1;
otherwise the facet-one-axis strategy (3d_col) along the first dimension
is chosen, with the facet column count capped at min(4, first extent). -/
theorem C6_rank3_strategy (var : DataArrayM)
    (h3 : var.shape.length = 3) (hd : var.dims.length = 3) :
    (detect_plotting_strategy var = "2d_classic_isel" ↔ var.shape.getD 0 0 = 1) ∧
    (var.shape.getD 0 0 ≠ 1 →
       detect_plotting_strategy var = "3d_col" ∧
       plot_call var = .imshow3dCol (var.dims.getD 0 "") (min 4 (var.shape.getD 0 0))) := by
  have hstrat : detect_plotting_strategy var
      = (if var.shape.getD 0 0 == 1 then "2d_classic_isel" else "3d_col") := by
    simp [detect_plotting_strategy, h3, hd]
  by_cases h1 : var.shape.getD 0 0 = 1
  · constructor
    · simp [hstrat, h1]
    · intro hne
      exact absurd h1 hne
  · have hbeq : (var.shape.getD 0 0 == 1) = false := beq_eq_false_iff_ne.mpr h1
    have hs2 : detect_plotting_strategy var = "3d_col" := by
      rw [hstrat, hbeq]
      simp
    constructor
    · rw [hs2]
      constructor
      · intro hx
        exact absurd hx (by decide)
      · intro hx
        exact absurd hx h1
    · intro _
      refine ⟨hs2, ?_⟩
      simp [plot_call, hs2]

def varC6a : DataArrayM :=
  ⟨["t", "y", "x"], [1, 50, 50], "float64", 20000, [], .ok "da", .ok "<da>"⟩

def varC6b : DataArrayM :=
  ⟨["t", "y", "x"], [6, 50, 50], "float64", 120000, [], .ok "da", .ok "<da>"⟩

/-- C6 witness: shape [1, 50, 50] gives the index-select single strategy,
shape [6, 50, 50] gives the facet strategy with col_wrap min(4, 6) = 4. -/
theorem C6_rank3_strategy_witness :
    detect_plotting_strategy varC6a = "2d_classic_isel"
    ∧ detect_plotting_strategy varC6b = "3d_col"
    ∧ plot_call varC6b = .imshow3dCol "t" 4 := by
  refine ⟨?_, ?_, ?_⟩
  · exact (C6_rank3_strategy varC6a rfl rfl).1.mpr rfl
  · exact ((C6_rank3_strategy varC6b rfl rfl).2 (by decide)).1
  · exact ((C6_rank3_strategy varC6b rfl rfl).2 (by decide)).2

/- C7: a non-auto plot_type. -/

/-- C7: for every plot request whose plot_type is any literal other than
auto, no file access happens (the environment is arbitrary and never
consulted), but the caller does not receive an error envelope: the raised
ValueError reaches the except handler before the local file_format_info is
bound, so the handler itself raises UnboundLocalError, which escapes
create_plot as an uncaught crash. -/
theorem C7_invalid_plot_type_crash (env : Env) (file_path : PyPath)
    (variable_path plot_type style : String) (hpt : plot_type ≠ "auto") :
    create_plot env file_path variable_path plot_type style
      = ⟨.error (.unboundLocalError "file_format_info"), []⟩ := by
  have hb : (plot_type != "auto") = true := by
    simp [bne_iff_ne, hpt]
  simp [create_plot, create_plot_try, hb]

def envC7w : Env :=
  ⟨true,
   fun _ => .ok (some ()),
   fun _ => .ok treePlain,
   fun _ => .ok dsPlain,
   fun _ _ => .ok dsPlain,
   .ok [], .ok [], fun _ => .ok "PNG", 0, "versions"⟩

/-- C7 witness: the crash at the concrete failing input
plot data.nc /temperature histogram. -/
theorem C7_invalid_plot_type_crash_witness :
    create_plot envC7w ⟨".nc", "PosixPath(data.nc)"⟩ "/temperature" "histogram" ""
      = ⟨.error (.unboundLocalError "file_format_info"), []⟩ :=
  C7_invalid_plot_type_crash envC7w ⟨".nc", "PosixPath(data.nc)"⟩
    "/temperature" "histogram" "" (by decide)

/- C8: probing errors. -/

/-- C8 (amended): an error raised by the dependency probe is swallowed and
reported as not-available only by the standalone checker script and only
for ImportError, ModuleNotFoundError and ValueError; the in-process prober
used by resolveFormat catches nothing, so a probing error propagates to
the caller of detect_file_format. -/
theorem C8_probe_error_propagation (env : Env) (package_name : String) (e : PyError)
    (h : env.findSpec package_name = .error e) :
    check_package_availability env package_name = .error e
    ∧ (caughtByScriptProbe e = true →
        check_package_availability_script env [package_name]
          = .ok [(package_name, false)])
    ∧ (package_name = "netCDF4" →
        ∀ r, detect_file_format env ⟨".nc", r⟩ = .error e) := by
  refine ⟨?_, ?_, ?_⟩
  · simp [check_package_availability, h]
  · intro hc
    simp [check_package_availability_script, h, hc, List.foldlM]
  · intro hn r
    subst hn
    have hext : String.mk ((".nc" : String).toList.map Char.toLower) = ".nc" := rfl
    simp [detect_file_format, hext, get_available_engines, FORMAT_ENGINE_MAP,
      ENGINE_PACKAGES, check_package_availability, h, List.foldlM,
      bind, Except.bind]

def envC8x : Env :=
  ⟨true,
   fun n => if n == "netCDF4" then .error (.valueError "broken spec") else .ok (some ()),
   fun _ => .ok treePlain,
   fun _ => .ok dsPlain,
   fun _ _ => .ok dsPlain,
   .ok [], .ok [], fun _ => .ok "PNG", 0, "versions"⟩

/-- C8 counterexample: a probe error for the first candidate dependency of
a .nc file propagates out of detect_file_format (resolveFormat) instead of
being swallowed as not-available. -/
theorem C8_counterexample :
    detect_file_format envC8x ⟨".nc", "PosixPath(f)"⟩
      = .error (.valueError "broken spec") :=
  rfl

/-- C8 witness: the amended theorem applied to the concrete broken probe. -/
theorem C8_probe_error_propagation_witness :
    check_package_availability envC8x "netCDF4" = .error (.valueError "broken spec")
    ∧ check_package_availability_script envC8x ["netCDF4"]
      = .ok [("netCDF4", false)]
    ∧ detect_file_format envC8x ⟨".nc", "PosixPath(f)"⟩
      = .error (.valueError "broken spec") := by
  refine ⟨?_, ?_, ?_⟩
  · exact (C8_probe_error_propagation envC8x "netCDF4" (.valueError "broken spec") rfl).1
  · exact (C8_probe_error_propagation envC8x "netCDF4" (.valueError "broken spec") rfl).2.1 rfl
  · exact (C8_probe_error_propagation envC8x "netCDF4" (.valueError "broken spec") rfl).2.2
      rfl "PosixPath(f)"

/- C9: NaN handling in the serialized envelope. -/

mutual

def noTupleVal : PyVal → Bool
  | .tupleV _ => false
  | .listV xs => noTupleList xs
  | .dictV kvs => noTuplePairs kvs
  | _ => true

def noTupleList : List PyVal → Bool
  | [] => true
  | v :: tl => noTupleVal v && noTupleList tl

def noTuplePairs : List (String × PyVal) → Bool
  | [] => true
  | kv :: tl => noTupleVal kv.2 && noTuplePairs tl

end

mutual

theorem sanitizedDumpsOk : ∀ (v : PyVal), noTupleVal v = true →
    ∃ s, dumpsVal (sanitize_nan nanReprDefault v) = .ok s
  | .strV s, _ => ⟨jsonQuote s, rfl⟩
  | .intV n, _ => ⟨toString n, rfl⟩
  | .boolV b, _ => ⟨if b then "true" else "false", rfl⟩
  | .noneV, _ => ⟨"null", rfl⟩
  | .nanFloat, _ => ⟨jsonQuote "nan", rfl⟩
  | .numFloat lit, _ => ⟨lit, rfl⟩
  | .ndarrayV s, _ => ⟨jsonQuote s, rfl⟩
  | .opaqueV s, _ => ⟨jsonQuote s, rfl⟩
  | .tupleV xs, h => by simp [noTupleVal] at h
  | .listV xs, h => by
      have h2 : noTupleList xs = true := h
      obtain ⟨parts, hp⟩ := sanitizedDumpsListOk xs h2
      exact ⟨"[" ++ String.intercalate ", " parts ++ "]",
        by simp [sanitize_nan, dumpsVal, hp]⟩
  | .dictV kvs, h => by
      have h2 : noTuplePairs kvs = true := h
      obtain ⟨parts, hp⟩ := sanitizedDumpsPairsOk kvs h2
      exact ⟨"\x7b" ++ String.intercalate ", " parts ++ "\x7d",
        by simp [sanitize_nan, dumpsVal, hp]⟩

theorem sanitizedDumpsListOk : ∀ (xs : List PyVal), noTupleList xs = true →
    ∃ parts, dumpsList (sanitizeList nanReprDefault xs) = .ok parts
  | [], _ => ⟨[], rfl⟩
  | v :: tl, h => by
      have hsplit := (Bool.and_eq_true _ _).mp h
      obtain ⟨s, hs⟩ := sanitizedDumpsOk v hsplit.1
      obtain ⟨parts, hp⟩ := sanitizedDumpsListOk tl hsplit.2
      exact ⟨s :: parts, by simp [sanitizeList, dumpsList, hs, hp]⟩

theorem sanitizedDumpsPairsOk : ∀ (kvs : List (String × PyVal)),
    noTuplePairs kvs = true →
    ∃ parts, dumpsPairs (sanitizePairs nanReprDefault kvs) = .ok parts
  | [], _ => ⟨[], rfl⟩
  | kv :: tl, h => by
      have hsplit := (Bool.and_eq_true _ _).mp h
      obtain ⟨s, hs⟩ := sanitizedDumpsOk kv.2 hsplit.1
      obtain ⟨parts, hp⟩ := sanitizedDumpsPairsOk tl hsplit.2
      exact ⟨(jsonQuote kv.1 ++ ": " ++ s) :: parts,
        by simp [sanitizePairs, dumpsPairs, hs, hp]⟩

end

/-- C9 (amended): for payloads whose values nest only through dicts and
lists (with arbitrary scalars, NaN floats and numpy arrays at the leaves),
serialization never fails: NaN float leaves are replaced by the sentinel
repr string before encoding and numpy arrays are stringified wholesale by
the str fallback.  A NaN inside a tuple-valued leaf, however, is neither
sanitized (sanitize_nan recurses only into dicts and lists) nor
stringified (tuples are natively encoded as JSON arrays), so encoding
raises under allow_nan=False. -/
theorem C9_nan_serialization (v : PyVal) (h : noTupleVal v = true) :
    ∃ s, to_json_best_effort v = .ok s :=
  sanitizedDumpsOk v h

/-- C9 counterexample: a NaN float leaf nested inside a tuple-valued
attribute makes the JSON encoding fail with ValueError instead of being
replaced by a sentinel string. -/
theorem C9_counterexample :
    to_json_best_effort (.dictV [("a", .tupleV [.nanFloat])])
      = .error (.valueError "Out of range float values are not JSON compliant") :=
  rfl

def payloadC9 : PyVal :=
  .dictV [("temperature", .listV [.nanFloat, .numFloat "1.5", .ndarrayV "[nan  1.]"]),
          ("units", .strV "K")]

/-- C9 witness: the amended theorem applied to a tuple-free payload with a
nested NaN float and a NaN-carrying numpy array. -/
theorem C9_nan_serialization_witness :
    noTupleVal payloadC9 = true ∧ ∃ s, to_json_best_effort payloadC9 = .ok s :=
  ⟨rfl, C9_nan_serialization payloadC9 rfl⟩

/- C10: the variable name used by create_plot. -/

/-- C10: the variable looked up in the resolved group is the stem of the
final segment of variable_path (its last dot-suffix removed), so a request
whose final segment contains a dot looks up the truncated name and is
answered with a variable-not-found envelope even when a variable bearing
the full final segment exists in the group. -/
theorem C10_variable_stem_lookup (env : Env) (file_path : PyPath)
    (variable_path style : String) (ffi : FileFormatInfo) (engine : String)
    (d : List (String × DatasetM)) (ds : DatasetM)
    (hffi : detect_file_format env file_path = .ok ffi)
    (hsup : ffi.is_supported = true)
    (hmpl : check_package_availability env "matplotlib" = .ok true)
    (hopen : open_datatree_with_fallback env ffi = .ok (.dict d, engine))
    (hfind : d.find? (fun kv => kv.1 == posixParentStr variable_path)
      = some (posixParentStr variable_path, ds))
    (hvar : findVariable ds (posixStem variable_path) = none) :
    create_plot env file_path variable_path "auto" style
      = ⟨.ok (.inr ⟨"Variable \x27" ++ posixStem variable_path
          ++ "\x27 not found in dataset", ffi⟩), d.map Prod.fst⟩ := by
  simp [create_plot, create_plot_try, hffi, hsup, hmpl, hopen, lookupGroup,
    HandleM.isTree, Bool.and_false, hfind, hvar, closeAll]

def varPlain : DataArrayM := ⟨["y", "x"], [2, 2], "float64", 32, [], .ok "da", .ok "<da>"⟩

def dsC10 : DatasetM := ⟨[("temp.v2", varPlain)], [], [], [], .ok "ds", .ok "<ds>"⟩

def envC10 : Env :=
  ⟨true,
   fun _ => .ok (some ()),
   fun _ => .error (.osError "unused"),
   fun e => if e == "cfgrib" then .ok dsC10 else .error (.osError "never"),
   fun _ _ => .error (.osError "never"),
   .ok [], .ok [], fun _ => .ok "PNG", 0, "versions"⟩

/-- C10 witness: requesting /temp.v2 in a group that stores a variable
named temp.v2 (and no variable named temp) looks up the truncated name
temp and returns the not-found envelope. -/
theorem C10_variable_stem_lookup_witness :
    create_plot envC10 ⟨".grib", "PosixPath(f)"⟩ "/temp.v2" "auto" ""
      = ⟨.ok (.inr ⟨"Variable \x27temp\x27 not found in dataset",
          ⟨".grib", "GRIB", ["cfgrib"], []⟩⟩), ["/"]⟩
    ∧ dsC10.dataVars.map Prod.fst = ["temp.v2"] := by
  constructor
  · exact C10_variable_stem_lookup envC10 ⟨".grib", "PosixPath(f)"⟩ "/temp.v2" ""
      ⟨".grib", "GRIB", ["cfgrib"], []⟩ "cfgrib" [("/", dsC10)] dsC10
      rfl rfl rfl rfl rfl rfl
  · rfl
